import Mathlib

/-!
Verification of the response-envelope interpretation and list-rendering
layer of the authkit test-script suite (Python sources under
`examples/testscript`). The code is shallowly embedded: decoded JSON
bodies become the `JVal` type, Python dict access becomes association-list
lookup, truthiness and `str` conversion are modelled explicitly, and
functions that can raise return `Except` or `PyResult` values.
-/

set_option linter.unusedVariables false
set_option linter.unnecessarySeqFocus false

/-- JSON values as decoded by the Python json module: objects are association
lists of string keys (unique in practice), numbers restricted to integers
(the scripts only handle integer ids). -/
inductive JVal where
  | null : JVal
  | bool (b : Bool) : JVal
  | num (n : Int) : JVal
  | str (s : String) : JVal
  | arr (xs : List JVal) : JVal
  | obj (fields : List (String × JVal)) : JVal

/-- Association-list lookup, mirroring Python dict lookup (first binding wins). -/
def lookupF : List (String × JVal) → String → Option JVal
  | [], _ => none
  | (k, v) :: rest, key => if k = key then some v else lookupF rest key

def JVal.getField : JVal → String → Option JVal
  | JVal.obj fs, key => lookupF fs key
  | _, _ => none

def JVal.hasField (v : JVal) (key : String) : Bool :=
  (v.getField key).isSome

/-- Python truthiness on decoded JSON values. -/
def truthy : JVal → Bool
  | JVal.null => false
  | JVal.bool b => b
  | JVal.num n => n != 0
  | JVal.str s => s != ""
  | JVal.arr xs => !xs.isEmpty
  | JVal.obj fs => !fs.isEmpty

/-- Python `a or b`. -/
def pyOr (a b : JVal) : JVal := if truthy a then a else b

/-- Single-quote character, used by Python `repr` for strings. -/
def pySQuote : String := String.singleton (Char.ofNat 39)

mutual

/-- Python `repr` of a decoded JSON value (approximate: inner quote and
control-character escaping inside string literals is not modelled; no claim
depends on those cases). -/
def pyRepr : JVal → String
  | JVal.null => "None"
  | JVal.bool b => if b then "True" else "False"
  | JVal.num n => toString n
  | JVal.str s => pySQuote ++ s ++ pySQuote
  | JVal.arr xs => "[" ++ pyReprList xs ++ "]"
  | JVal.obj fs => "\x7b" ++ pyReprFields fs ++ "\x7d"

def pyReprList : List JVal → String
  | [] => ""
  | [x] => pyRepr x
  | x :: y :: xs => pyRepr x ++ ", " ++ pyReprList (y :: xs)

def pyReprFields : List (String × JVal) → String
  | [] => ""
  | [(k, v)] => pySQuote ++ k ++ pySQuote ++ ": " ++ pyRepr v
  | (k, v) :: p :: fs => pySQuote ++ k ++ pySQuote ++ ": " ++ pyRepr v ++ ", " ++ pyReprFields (p :: fs)

end

/-- Python `str` of a decoded JSON value. -/
def pyStr : JVal → String
  | JVal.str s => s
  | v => pyRepr v

/-- Failure-message extraction shared by `register_user.register_user`
(lines 66-81) and `share.delete_user` (lines 813-825): start from a fixed
default, derive a message from the `error` field (object `message` member,
or the string itself), then let a present top-level `message` override.
The later validation-detail suffix of `register_user` is outside the claims. -/
def extract_error_msg (defaultMsg : String) (resp_data : JVal) : JVal :=
  let em0 : JVal := JVal.str defaultMsg
  let derived : JVal :=
    match resp_data.getField "error" with
    | some (JVal.obj o) => (lookupF o "message").getD em0
    | some (JVal.str s) => JVal.str s
    | _ => em0
  match resp_data.getField "message" with
  | some v => v
  | none => derived

/-- Message displayed by `share.handle_error_response` (lines 109-119):
`error` defaults to `""`; an object yields its `message` member (else the
`str` of the object itself), anything else is stringified. The top-level `message`
field is never consulted. -/
def handle_error_msg (resp_data : JVal) : String :=
  let error_value := (resp_data.getField "error").getD (JVal.str "")
  match error_value with
  | JVal.obj o =>
    match lookupF o "message" with
    | some m => pyStr m
    | none => pyStr (JVal.obj o)
  | v => pyStr v

/-- Result of `share.create_role` (lines 494-504) as a function of the
response status and decoded body: `False` when the status is at least 400
or the body has an `error` key, `True` otherwise. -/
def create_role_result (status : Nat) (resp_data : JVal) : Bool :=
  if 400 ≤ status ∨ resp_data.hasField "error" = true then false else true

/-- Payload returned by `share.filter_rules` (lines 629-656, `verbose :=
false`): `None` unless the status is 200, the body has no `error` key and
has a `data` key; a `null` `data` value is returned as Python `None` as
well. -/
def filter_rules (status : Nat) (body : JVal) : Option JVal :=
  if status ≠ 200 then none
  else if body.hasField "error" then none
  else if ¬ body.hasField "data" then none
  else match (body.getField "data").getD JVal.null with
       | JVal.null => none
       | v => some v

/-- Payload returned by `share.get_profile` (lines 334-370, `verbose :=
false`): same envelope handling as `filter_rules`, returning the `data`
value. -/
def get_profile (status : Nat) (body : JVal) : Option JVal :=
  if status ≠ 200 then none
  else if body.hasField "error" then none
  else if ¬ body.hasField "data" then none
  else match (body.getField "data").getD JVal.null with
       | JVal.null => none
       | v => some v

/-- Lookup in the `role_names_map` built by `share.get_role_names_map`
(typed `Dict[int, str]` in the source). -/
def rolesMapLookup (m : List (Int × String)) (k : Int) : Option String :=
  match m with
  | [] => none
  | (k0, v) :: rest => if k0 = k then some v else rolesMapLookup rest k

/-- Role-id resolution inlined in `share.print_rules_list` (lines 730-735):
the mapped name when the id is a key of the map, else the stringified id. -/
def resolve_role_name (m : List (Int × String)) (role_id : Int) : String :=
  match rolesMapLookup m role_id with
  | some nm => nm
  | none => toString role_id

/-- Wrap in double quotes, as `print_rules_list` does for every role name. -/
def quoteJ (s : String) : String := "\"" ++ s ++ "\""

/-- Python iterability of a decoded JSON value: lists iterate elements,
strings iterate one-character strings, dicts iterate keys; scalars raise
`TypeError` (`none`). -/
def pyIter : JVal → Option (List JVal)
  | JVal.arr xs => some xs
  | JVal.str s => some (s.toList.map (fun c => JVal.str (String.singleton c)))
  | JVal.obj fs => some (fs.map (fun p => JVal.str p.1))
  | _ => none

/-- One step of the role-name loop of `print_rules_list` (lines 730-735):
`role_id in role_names_map` with an int-keyed dict is `False` for strings
and `None`, uses the Python identification of `bool` with `int` for booleans, and
raises `TypeError` for unhashable list/dict elements. -/
def resolveRoleEntry (m : List (Int × String)) : JVal → Except Unit String
  | JVal.arr _ => Except.error ()
  | JVal.obj _ => Except.error ()
  | JVal.num n => Except.ok (quoteJ (resolve_role_name m n))
  | JVal.bool b =>
    (match rolesMapLookup m (if b then 1 else 0) with
     | some nm => Except.ok (quoteJ nm)
     | none => Except.ok (quoteJ (pyStr (JVal.bool b))))
  | v => Except.ok (quoteJ (pyStr v))

/-- Head of a rendered rule line, `share.print_rules_list` lines 722-744:
`"<id>  , <TYPE>"` or `"<id>  , <TYPE>(<names>)"`, with missing `id`/`type`
defaulting to `"N/A"` and missing `roles` to `[]`. -/
def rule_head (m : List (Int × String)) (rule : JVal) : Except Unit String :=
  let rule_id := (rule.getField "id").getD (JVal.str "N/A")
  let rule_type := (rule.getField "type").getD (JVal.str "N/A")
  let roles := (rule.getField "roles").getD (JVal.arr [])
  match pyIter roles with
  | none => Except.error ()
  | some items =>
    match items.mapM (resolveRoleEntry m) with
    | Except.error e => Except.error e
    | Except.ok role_names =>
      let roles_str := String.intercalate ", " role_names
      let type_with_roles :=
        if roles_str = "" then pyStr rule_type
        else pyStr rule_type ++ "(" ++ roles_str ++ ")"
      Except.ok (pyStr rule_id ++ "  , " ++ type_with_roles)

/-- Full rendered rule line, `share.print_rules_list` lines 722-759: the
head, then `" , fixed"` when `fixed` is truthy, then the `service_name`
segment with `", "` after `fixed` but `" , "` otherwise. A missing `fixed`
defaults to `False`; `service_name` passes through `or ""`. -/
def render_rule_line (m : List (Int × String)) (rule : JVal) : Except Unit String :=
  match rule_head m rule with
  | Except.error e => Except.error e
  | Except.ok head =>
    let fixedv := (rule.getField "fixed").getD (JVal.bool false)
    let service_name := pyOr ((rule.getField "service_name").getD JVal.null) (JVal.str "")
    let out1 := if truthy fixedv then head ++ " , fixed" else head
    let out2 :=
      if truthy service_name then
        (if truthy fixedv then out1 ++ ", " ++ pyStr service_name
         else out1 ++ " , " ++ pyStr service_name)
      else out1
    Except.ok out2

/-- Substring test on strings (via character lists). -/
def strContains (s pat : String) : Bool := decide (pat.toList <:+: s.toList)

/-- One step of the role-name loop of `list_users.print_users_list`
(lines 252-259): a plain string is kept as is; a dict contributes
`str(name or role_name or roleName)` when that chain is truthy; any other
element is skipped. -/
def extract_role_name : JVal → Option String
  | JVal.str s => some s
  | JVal.obj o =>
    let rn := pyOr (pyOr ((lookupF o "name").getD JVal.null)
                         ((lookupF o "role_name").getD JVal.null))
                   ((lookupF o "roleName").getD JVal.null)
    if truthy rn then some (pyStr rn) else none
  | _ => none

/-- Roles column of `list_users.print_users_list` (lines 245-264): a
non-list `roles` value is replaced by `[]`, names are flattened by
`extract_role_name`, and an empty name list renders the placeholder. -/
def user_roles_str (user : JVal) : String :=
  let roles :=
    match (user.getField "roles").getD (JVal.arr []) with
    | JVal.arr xs => xs
    | _ => []
  let names := roles.filterMap extract_role_name
  if names = [] then "(không có role)" else String.intercalate ", " names

/-- Name selection of `list_user_has_role.print_users_list` (line 200):
only dict elements with a truthy `name` contribute, and they contribute the
raw `name` value (not stringified). -/
def uhr_collect (items : List JVal) : List JVal :=
  items.filterMap (fun r =>
    match r with
    | JVal.obj o =>
      let nv := (lookupF o "name").getD JVal.null
      if truthy nv then some nv else none
    | _ => none)

/-- Keep a list of JSON values only when all are strings (Python
`", ".join` raises `TypeError` otherwise). -/
def allStrings : List JVal → Option (List String) :=
  List.mapM (fun v => match v with | JVal.str s => some s | _ => none)

/-- Roles column of `list_user_has_role.print_users_list` (lines 183-207):
iterates `roles` (raising on non-iterables), keeps truthy `name` members of
dict elements, joins them (raising when a kept name is not a string), and
renders `"N/A"` when nothing was kept. -/
def user_roles_str_uhr (user : JVal) : Except Unit String :=
  match pyIter ((user.getField "roles").getD (JVal.arr [])) with
  | none => Except.error ()
  | some items =>
    match allStrings (uhr_collect items) with
    | none => Except.error ()
    | some strs => Except.ok (if strs = [] then "N/A" else String.intercalate ", " strs)

/-- Outcome of a Python function call: `exited` is `sys.exit` (SystemExit),
`raised` is any other uncaught exception, `ok` is a normal return. -/
inductive PyResult (α : Type) where
  | exited : PyResult α
  | raised : PyResult α
  | ok : α → PyResult α

/-- Body-handling stage of `share.login` (lines 74-97), after
`raise_for_status` succeeded and the body decoded to a JSON object `fs`:
exit on an `error` key, a missing `data` key, or a falsy token; the
`token[:50]` display slice raises on non-sliceable tokens, `user.get` on a
non-dict user, and `data.get("data", {}).get("token")` on a non-dict
`data` value. -/
def login_body (fs : List (String × JVal)) : PyResult (JVal × JVal) :=
  if (lookupF fs "error").isSome then PyResult.exited
  else if (lookupF fs "data").isNone then PyResult.exited
  else
    match (lookupF fs "data").getD JVal.null with
    | JVal.obj dfs =>
      let token := (lookupF dfs "token").getD JVal.null
      if truthy token = false then PyResult.exited
      else
        let user := (lookupF dfs "user").getD (JVal.obj [])
        match token with
        | JVal.str _ =>
          (match user with
           | JVal.obj ufs => PyResult.ok (token, JVal.obj ufs)
           | _ => PyResult.raised)
        | JVal.arr _ =>
          (match user with
           | JVal.obj ufs => PyResult.ok (token, JVal.obj ufs)
           | _ => PyResult.raised)
        | _ => PyResult.raised
    | _ => PyResult.raised

/-- Full `share.login` (lines 52-97) as a function of the response status
and decoded body: `resp.raise_for_status()` (line 73) raises
`requests.HTTPError` for every 4xx or 5xx status before the body is ever
inspected; only an accepted status reaches the body-handling stage. -/
def login (status : Nat) (fs : List (String × JVal)) : PyResult (JVal × JVal) :=
  if 400 ≤ status ∧ status < 600 then PyResult.raised
  else login_body fs

/-- Scalar (non-container) JSON values: exactly the hashable ones, which
may appear as Python dict-membership probes without raising. -/
def JVal.scalar : JVal → Bool
  | JVal.arr _ => false
  | JVal.obj _ => false
  | _ => true

theorem nat_toDigits_ne_nil (b n : Nat) : Nat.toDigits b n ≠ [] := by
  unfold Nat.toDigits
  simp only [Nat.toDigitsCore]
  split
  · simp
  · apply List.ne_nil_of_length_pos
    rw [Nat.toDigitsCore_lens_eq]
    omega

theorem nat_repr_ne_empty (n : Nat) : Nat.repr n ≠ "" := by
  unfold Nat.repr
  intro h
  have h2 : (Nat.toDigits 10 n) = [] := congrArg String.data h
  exact nat_toDigits_ne_nil 10 n h2

theorem int_toString_ne_empty (i : Int) : toString i ≠ "" := by
  show Int.repr i ≠ ""
  cases i with
  | ofNat m => exact nat_repr_ne_empty m
  | negSucc m =>
    intro h
    simp only [Int.repr] at h
    have h2 := congrArg String.length h
    rw [String.length_append] at h2
    rw [show ("-" : String).length = 1 from rfl, show ("" : String).length = 0 from rfl] at h2
    omega

theorem resolveRoleEntry_scalar (m : List (Int × String)) (a : JVal) (h : a.scalar = true) :
    ∃ s, resolveRoleEntry m a = Except.ok s := by
  cases a with
  | arr xs => simp [JVal.scalar] at h
  | obj fs => simp [JVal.scalar] at h
  | bool b =>
    cases hb : rolesMapLookup m (if b then 1 else 0) with
    | none => exact ⟨quoteJ (pyStr (JVal.bool b)), by simp [resolveRoleEntry, hb]⟩
    | some nm => exact ⟨quoteJ nm, by simp [resolveRoleEntry, hb]⟩
  | null => exact ⟨_, rfl⟩
  | num n => exact ⟨_, rfl⟩
  | str s => exact ⟨_, rfl⟩

theorem mapM_resolve_scalar (m : List (Int × String)) :
    ∀ xs : List JVal, (∀ e ∈ xs, e.scalar = true) →
      ∃ ys, xs.mapM (resolveRoleEntry m) = Except.ok ys := by
  intro xs h
  induction xs with
  | nil => exact ⟨[], rfl⟩
  | cons a l ih =>
    obtain ⟨s, hs⟩ := resolveRoleEntry_scalar m a (h a (by simp))
    obtain ⟨ys, hys⟩ := ih (fun e he => h e (by simp [he]))
    refine ⟨s :: ys, ?_⟩
    rw [List.mapM_cons, hs, hys]
    rfl

theorem render_eq_of_fields (m : List (Int × String)) (r1 r2 : JVal)
    (hid : (r1.getField "id").getD (JVal.str "N/A") = (r2.getField "id").getD (JVal.str "N/A"))
    (hty : (r1.getField "type").getD (JVal.str "N/A") = (r2.getField "type").getD (JVal.str "N/A"))
    (hfx : (r1.getField "fixed").getD (JVal.bool false) = (r2.getField "fixed").getD (JVal.bool false))
    (hsv : pyOr ((r1.getField "service_name").getD JVal.null) (JVal.str "")
         = pyOr ((r2.getField "service_name").getD JVal.null) (JVal.str ""))
    (hrl : (r1.getField "roles").getD (JVal.arr []) = (r2.getField "roles").getD (JVal.arr [])) :
    render_rule_line m r1 = render_rule_line m r2 := by
  unfold render_rule_line rule_head
  rw [hid, hty, hfx, hsv, hrl]

/-- Claim C1 (counterexample): on the envelope with `error` an object
carrying message "A" and top-level message "B", the extraction of
`register_user`/`delete_user` yields "B", not the claimed "A": the
top-level `message` overrides `error.message`, it is not a fallback. -/
theorem c1_extraction_priority_cx :
    extract_error_msg "d"
      (JVal.obj [("error", JVal.obj [("message", JVal.str "A")]), ("message", JVal.str "B")])
      = JVal.str "B"
    ∧ JVal.str "B" ≠ JVal.str "A" := by
  refine ⟨rfl, ?_⟩
  intro h
  injection h with h'
  exact absurd h' (by decide)

/-- Claim C1 (amended): the error-derived message prefers `error.message`
for object errors, then a string `error`, then the fixed default; but a
present top-level `message` overrides the error-derived message, and the
fixed default is extracted only when `error` yields nothing and no
top-level `message` exists. -/
theorem c1_extraction_priority_amended (d : String) (fs : List (String × JVal)) :
    (∀ v, lookupF fs "message" = some v → extract_error_msg d (JVal.obj fs) = v)
    ∧ (lookupF fs "message" = none →
        (∀ o m, lookupF fs "error" = some (JVal.obj o) → lookupF o "message" = some m →
            extract_error_msg d (JVal.obj fs) = m)
        ∧ (∀ s, lookupF fs "error" = some (JVal.str s) →
            extract_error_msg d (JVal.obj fs) = JVal.str s)
        ∧ (lookupF fs "error" = none → extract_error_msg d (JVal.obj fs) = JVal.str d)) := by
  constructor
  · intro v hv
    simp [extract_error_msg, JVal.getField, hv]
  · intro hm
    refine ⟨?_, ?_, ?_⟩
    · intro o m ho hm2
      simp [extract_error_msg, JVal.getField, hm, ho, hm2]
    · intro s hs
      simp [extract_error_msg, JVal.getField, hm, hs]
    · intro he
      simp [extract_error_msg, JVal.getField, hm, he]

/-- Claim C1 (witness): a string `error` with no top-level `message` is
extracted verbatim. -/
theorem c1_extraction_priority_amended_witness :
    extract_error_msg "d" (JVal.obj [("error", JVal.str "boom")]) = JVal.str "boom" :=
  ((c1_extraction_priority_amended "d" [("error", JVal.str "boom")]).2 rfl).2.1 "boom" rfl

/-- Claim C4 (counterexample): `handle_error_response` never consults the
top-level `message`: on `error` "X" with top-level message "B" it displays
"X", so the override does not hold at every extraction site. -/
theorem c4_top_message_cx :
    handle_error_msg (JVal.obj [("error", JVal.str "X"), ("message", JVal.str "B")]) = "X"
    ∧ ("X" : String) ≠ "B" := ⟨rfl, by decide⟩

/-- Claim C4 (amended): in the `register_user`/`delete_user` extraction a
top-level `message` value overrides the error-derived message, whatever
the `error` field holds; `handle_error_response`, by contrast, ignores a
top-level `message` field entirely. -/
theorem c4_top_message_amended (d : String) (fs : List (String × JVal)) :
    (∀ v, lookupF fs "message" = some v → extract_error_msg d (JVal.obj fs) = v)
    ∧ (∀ v, handle_error_msg (JVal.obj (("message", v) :: fs)) = handle_error_msg (JVal.obj fs)) := by
  constructor
  · intro v hv
    simp [extract_error_msg, JVal.getField, hv]
  · intro v
    simp [handle_error_msg, JVal.getField, lookupF]

/-- Claim C4 (witness): the top-level message "B" wins over the object
`error.message` "A". -/
theorem c4_top_message_amended_witness :
    extract_error_msg "d"
      (JVal.obj [("error", JVal.obj [("message", JVal.str "A")]), ("message", JVal.str "B")])
      = JVal.str "B" :=
  (c4_top_message_amended "d"
    [("error", JVal.obj [("message", JVal.str "A")]), ("message", JVal.str "B")]).1
    (JVal.str "B") rfl

/-- Claim C2: a truthy `error` key in the body or a status of at least 400
makes `create_role` report failure and `filter_rules` return no payload,
whatever `data` holds. -/
theorem c2_error_or_status_is_failure (status : Nat) (body : JVal)
    (h : (∃ v, body.getField "error" = some v ∧ truthy v = true) ∨ 400 ≤ status) :
    create_role_result status body = false ∧ filter_rules status body = none := by
  rcases h with ⟨v, hv, _⟩ | hs
  · have hf : body.hasField "error" = true := by simp [JVal.hasField, hv]
    constructor
    · simp [create_role_result, hf]
    · by_cases h200 : status = 200
      · simp [filter_rules, h200, hf]
      · simp [filter_rules, h200]
  · have h200 : status ≠ 200 := by omega
    constructor
    · simp [create_role_result, hs]
    · simp [filter_rules, h200]

/-- Claim C2 (witness): status 401 with a non-empty `error` and a `data`
payload is still a failure. -/
theorem c2_error_or_status_is_failure_witness :
    create_role_result 401 (JVal.obj [("error", JVal.str "x"), ("data", JVal.num 1)]) = false
    ∧ filter_rules 401 (JVal.obj [("error", JVal.str "x"), ("data", JVal.num 1)]) = none :=
  c2_error_or_status_is_failure 401 _ (Or.inr (by omega))

/-- Claim C3 (counterexample): a 200 response whose body `{}` has no
`error` and no `data` key does not yield the whole body as payload:
`get_profile` treats it as invalid and returns `None`. -/
theorem c3_success_payload_cx :
    get_profile 200 (JVal.obj []) = none
    ∧ get_profile 200 (JVal.obj []) ≠ some (JVal.obj []) := by
  refine ⟨rfl, ?_⟩
  intro h
  rw [show get_profile 200 (JVal.obj []) = none from rfl] at h
  exact Option.noConfusion h

/-- Claim C3 (amended): on a success-classified response (status 200, no
`error` key) the payload is the `data` value of the body when that field is
present and non-null; when `data` is absent (or null, which Python returns
as `None`) the call returns no payload instead of the whole body. -/
theorem c3_success_payload_amended (body : JVal) (hne : body.hasField "error" = false) :
    (∀ v, body.getField "data" = some v → v ≠ JVal.null →
        get_profile 200 body = some v ∧ filter_rules 200 body = some v)
    ∧ (body.hasField "data" = false →
        get_profile 200 body = none ∧ filter_rules 200 body = none)
    ∧ (body.getField "data" = some JVal.null →
        get_profile 200 body = none ∧ filter_rules 200 body = none) := by
  refine ⟨?_, ?_, ?_⟩
  · intro v hv hvn
    have hd : body.hasField "data" = true := by simp [JVal.hasField, hv]
    cases v <;> simp_all [get_profile, filter_rules]
  · intro hd
    constructor <;> simp [get_profile, filter_rules, hne, hd]
  · intro hv
    have hd : body.hasField "data" = true := by simp [JVal.hasField, hv]
    constructor <;> simp [get_profile, filter_rules, hne, hd, hv]

/-- Claim C3 (witness): a body with `data` present yields exactly that
value. -/
theorem c3_success_payload_amended_witness :
    get_profile 200 (JVal.obj [("data", JVal.num 3)]) = some (JVal.num 3)
    ∧ filter_rules 200 (JVal.obj [("data", JVal.num 3)]) = some (JVal.num 3) :=
  (c3_success_payload_amended (JVal.obj [("data", JVal.num 3)]) rfl).1
    (JVal.num 3) rfl (by intro h; exact JVal.noConfusion h)

/-- Claim C5: the scenario rule of the spec renders to exactly the given line,
and with a non-empty service name the separator after `fixed` is `", "`. -/
theorem c5_scenario_rendering :
    render_rule_line [(1, "author"), (2, "reader")]
      (JVal.obj [("id", JVal.str "GET|/api/bar"), ("type", JVal.str "ALLOW"),
                 ("fixed", JVal.bool true), ("service_name", JVal.str ""),
                 ("roles", JVal.arr [JVal.num 1, JVal.num 2])])
      = Except.ok "GET|/api/bar  , ALLOW(\"author\", \"reader\") , fixed"
    ∧ render_rule_line [(1, "author"), (2, "reader")]
      (JVal.obj [("id", JVal.str "GET|/api/bar"), ("type", JVal.str "ALLOW"),
                 ("fixed", JVal.bool true), ("service_name", JVal.str "svc"),
                 ("roles", JVal.arr [JVal.num 1, JVal.num 2])])
      = Except.ok "GET|/api/bar  , ALLOW(\"author\", \"reader\") , fixed, svc"
    ∧ render_rule_line [(1, "author"), (2, "reader")]
      (JVal.obj [("id", JVal.str "GET|/api/bar"), ("type", JVal.str "ALLOW"),
                 ("fixed", JVal.bool false), ("service_name", JVal.str "svc"),
                 ("roles", JVal.arr [JVal.num 1, JVal.num 2])])
      = Except.ok "GET|/api/bar  , ALLOW(\"author\", \"reader\") , svc" :=
  ⟨rfl, rfl, rfl⟩

/-- Claim C6: role-id resolution returns the mapped name exactly when the
id is a key of the map, and the stringified id otherwise; on the empty map
it is always the stringified id, which is never empty; and resolving a
whole integer role list never fails and keeps one (quoted) entry per id. -/
theorem c6_resolve_role (m : List (Int × String)) (id : Int) :
    (∀ nm, rolesMapLookup m id = some nm → resolve_role_name m id = nm)
    ∧ (rolesMapLookup m id = none → resolve_role_name m id = toString id)
    ∧ resolve_role_name [] id = toString id
    ∧ resolve_role_name [] id ≠ ""
    ∧ (∀ xs : List Int, (xs.map (fun n => JVal.num n)).mapM (resolveRoleEntry m)
        = Except.ok (xs.map (fun n => quoteJ (resolve_role_name m n)))) := by
  refine ⟨?_, ?_, rfl, ?_, ?_⟩
  · intro nm h
    simp [resolve_role_name, h]
  · intro h
    simp [resolve_role_name, h]
  · show toString id ≠ ""
    exact int_toString_ne_empty id
  · intro xs
    induction xs with
    | nil => rfl
    | cons a l ih =>
      rw [List.map_cons, List.mapM_cons, ih, List.map_cons]
      rfl

/-- Claim C6 (witness): a mapped id resolves to its name, an unmapped one
to its own decimal string. -/
theorem c6_resolve_role_witness :
    resolve_role_name [(1, "author")] 1 = "author"
    ∧ resolve_role_name [(1, "author")] 2 = toString (2 : Int) :=
  ⟨(c6_resolve_role [(1, "author")] 1).1 "author" rfl,
   (c6_resolve_role [(1, "author")] 2).2.1 rfl⟩

/-- Claim C7 (counterexample): a rule with `fixed = false` and empty
`service_name` can still render a line containing the substring "fixed"
when its id contains it, so the universally quantified claim fails. -/
theorem c7_fixed_substring_cx :
    render_rule_line [] (JVal.obj [("id", JVal.str "GET|/api/fixed"), ("type", JVal.str "ALLOW"),
      ("fixed", JVal.bool false), ("service_name", JVal.str ""), ("roles", JVal.arr [])])
      = Except.ok "GET|/api/fixed  , ALLOW"
    ∧ strContains "GET|/api/fixed  , ALLOW" "fixed" = true := ⟨rfl, by decide⟩

/-- Claim C7 (amended): for a rule with falsy `fixed` and empty (or
missing, or null) `service_name` the rendered line is exactly the
id/type/roles head: no `fixed` segment and no trailing `service_name`
segment is appended, so "fixed" can occur only inside the id, type, or
role renderings. -/
theorem c7_no_fixed_segment_amended (m : List (Int × String)) (rule : JVal)
    (hf : truthy ((rule.getField "fixed").getD (JVal.bool false)) = false)
    (hs : truthy (pyOr ((rule.getField "service_name").getD JVal.null) (JVal.str "")) = false) :
    render_rule_line m rule = rule_head m rule := by
  unfold render_rule_line
  cases h : rule_head m rule with
  | error e => rfl
  | ok head => simp [hf, hs]

/-- Claim C7 (witness): on the counterexample rule the full renderer and
the head agree. -/
theorem c7_no_fixed_segment_amended_witness :
    render_rule_line [] (JVal.obj [("id", JVal.str "GET|/api/foo"), ("type", JVal.str "ALLOW"),
      ("fixed", JVal.bool false), ("service_name", JVal.str ""), ("roles", JVal.arr [])])
      = rule_head [] (JVal.obj [("id", JVal.str "GET|/api/foo"), ("type", JVal.str "ALLOW"),
      ("fixed", JVal.bool false), ("service_name", JVal.str ""), ("roles", JVal.arr [])]) :=
  c7_no_fixed_segment_amended [] _ rfl rfl

/-- Claim C8 (counterexample): the user-line renderers use the literals
"(không có role)" (`list_users`) and "N/A" (`list_user_has_role`) as the
no-roles placeholder, not "(none)". -/
theorem c8_placeholder_cx :
    user_roles_str (JVal.obj []) = "(không có role)"
    ∧ user_roles_str_uhr (JVal.obj []) = Except.ok "N/A"
    ∧ ("(không có role)" : String) ≠ "(none)"
    ∧ ("N/A" : String) ≠ "(none)" := ⟨rfl, rfl, by decide, by decide⟩

/-- Claim C8 (amended): `list_users.print_users_list` flattens `roles`
(absent, plain strings, or objects keyed name/role_name/roleName) into a
comma-joined list and renders the fixed placeholder "(không có role)" when
no name resolves; `list_user_has_role.print_users_list` keeps only truthy
`name` members of object entries and renders "N/A" when none remain.
Neither placeholder is the empty string. -/
theorem c8_user_roles_amended (fs : List (String × JVal)) :
    (lookupF fs "roles" = none →
      user_roles_str (JVal.obj fs) = "(không có role)"
      ∧ user_roles_str_uhr (JVal.obj fs) = Except.ok "N/A")
    ∧ (∀ xs, lookupF fs "roles" = some (JVal.arr xs) →
        (user_roles_str (JVal.obj fs) =
          if xs.filterMap extract_role_name = [] then "(không có role)"
          else String.intercalate ", " (xs.filterMap extract_role_name))
        ∧ (∀ strs, allStrings (uhr_collect xs) = some strs →
            user_roles_str_uhr (JVal.obj fs) =
              Except.ok (if strs = [] then "N/A" else String.intercalate ", " strs)))
    ∧ ("(không có role)" : String) ≠ "" ∧ ("N/A" : String) ≠ "" := by
  refine ⟨?_, ?_, by decide, by decide⟩
  · intro h
    constructor
    · simp only [user_roles_str, JVal.getField, h]
      rfl
    · simp only [user_roles_str_uhr, JVal.getField, h]
      rfl
  · intro xs h
    constructor
    · simp only [user_roles_str, JVal.getField, h]
      rfl
    · intro strs hstrs
      simp only [user_roles_str_uhr, JVal.getField, h, pyIter]
      change (match allStrings (uhr_collect xs) with
        | none => Except.error ()
        | some strs => Except.ok (if strs = [] then "N/A" else ", ".intercalate strs)) = _
      rw [hstrs]

/-- Claim C8 (witness): a plain-string role renders under `list_users` but
is dropped (placeholder) under `list_user_has_role`. -/
theorem c8_user_roles_amended_witness :
    user_roles_str (JVal.obj [("roles", JVal.arr [JVal.str "a"])]) = "a"
    ∧ user_roles_str_uhr (JVal.obj [("roles", JVal.arr [JVal.str "a"])]) = Except.ok "N/A" := by
  have h := (c8_user_roles_amended [("roles", JVal.arr [JVal.str "a"])]).2.1 [JVal.str "a"] rfl
  constructor
  · rw [h.1]; rfl
  · rw [h.2 [] rfl]
    rfl

/-- Claim C9 (counterexample): a rule dictionary whose `roles` value is the
number 5 makes the renderer raise (`for role_id in roles` over a
non-iterable), so the renderer is not total on all rule dictionaries. -/
theorem c9_renderer_total_cx :
    render_rule_line [] (JVal.obj [("roles", JVal.num 5)]) = Except.error () := rfl

/-- Claim C9 (amended): the renderer is total on every rule dictionary
whose `roles`, when present, is a list of scalars: it renders without
raising; a missing `id` behaves exactly as the literal "N/A", a missing
`type` as "N/A", a missing `fixed` as `False`, and a missing or null
`service_name` as the empty string (segment omitted). A non-list `roles`
value, or a list or dict among its elements, makes the Python loop raise
instead. -/
theorem c9_renderer_total_amended (m : List (Int × String)) (fs : List (String × JVal)) :
    (lookupF fs "roles" = none → ∃ s, render_rule_line m (JVal.obj fs) = Except.ok s)
    ∧ (∀ xs, lookupF fs "roles" = some (JVal.arr xs) → (∀ e ∈ xs, e.scalar = true) →
        ∃ s, render_rule_line m (JVal.obj fs) = Except.ok s)
    ∧ (lookupF fs "id" = none →
        render_rule_line m (JVal.obj fs)
          = render_rule_line m (JVal.obj (("id", JVal.str "N/A") :: fs)))
    ∧ (lookupF fs "type" = none →
        render_rule_line m (JVal.obj fs)
          = render_rule_line m (JVal.obj (("type", JVal.str "N/A") :: fs)))
    ∧ (lookupF fs "fixed" = none →
        render_rule_line m (JVal.obj fs)
          = render_rule_line m (JVal.obj (("fixed", JVal.bool false) :: fs)))
    ∧ (lookupF fs "service_name" = none →
        render_rule_line m (JVal.obj fs)
          = render_rule_line m (JVal.obj (("service_name", JVal.null) :: fs)))
    ∧ (lookupF fs "service_name" = some JVal.null →
        render_rule_line m (JVal.obj fs)
          = render_rule_line m (JVal.obj (("service_name", JVal.str "") :: fs))) := by
  refine ⟨?_, ?_, ?_, ?_, ?_, ?_, ?_⟩
  · intro h
    simp only [render_rule_line, rule_head, JVal.getField, h, Option.getD_none, pyIter]
    exact ⟨_, rfl⟩
  · intro xs h hsc
    obtain ⟨ys, hys⟩ := mapM_resolve_scalar m xs hsc
    simp only [render_rule_line, rule_head, JVal.getField, h, Option.getD_some, pyIter, hys]
    exact ⟨_, rfl⟩
  · intro h
    refine render_eq_of_fields m _ _ ?_ rfl rfl rfl rfl <;>
      simp [JVal.getField, lookupF, h]
  · intro h
    refine render_eq_of_fields m _ _ rfl ?_ rfl rfl rfl <;>
      simp [JVal.getField, lookupF, h]
  · intro h
    refine render_eq_of_fields m _ _ rfl rfl ?_ rfl rfl <;>
      simp [JVal.getField, lookupF, h]
  · intro h
    refine render_eq_of_fields m _ _ rfl rfl rfl ?_ rfl <;>
      simp [JVal.getField, lookupF, h]
  · intro h
    refine render_eq_of_fields m _ _ rfl rfl rfl ?_ rfl <;>
      simp [JVal.getField, lookupF, h, pyOr, truthy]

/-- Claim C9 (witness): a one-scalar role list renders successfully. -/
theorem c9_renderer_total_amended_witness :
    ∃ s, render_rule_line [] (JVal.obj [("roles", JVal.arr [JVal.num 1])]) = Except.ok s :=
  (c9_renderer_total_amended [] [("roles", JVal.arr [JVal.num 1])]).2.1
    [JVal.num 1] rfl (by simp [JVal.scalar])

/-- Case analysis of the body-handling stage: an `error` key, a missing
`data` key, or an object `data` with a falsy token each end in
`sys.exit(1)`, and a pair is returned only for a truthy token. -/
theorem login_body_cases (fs : List (String × JVal)) :
    ((lookupF fs "error").isSome = true → login_body fs = PyResult.exited)
    ∧ (lookupF fs "error" = none → lookupF fs "data" = none → login_body fs = PyResult.exited)
    ∧ (∀ dfs, lookupF fs "error" = none → lookupF fs "data" = some (JVal.obj dfs) →
        truthy ((lookupF dfs "token").getD JVal.null) = false → login_body fs = PyResult.exited)
    ∧ (∀ t u, login_body fs = PyResult.ok (t, u) → truthy t = true) := by
  refine ⟨?_, ?_, ?_, ?_⟩
  · intro h
    simp [login_body, h]
  · intro h1 h2
    simp [login_body, h1, h2]
  · intro dfs h1 h2 h3
    simp [login_body, h1, h2, h3]
  · intro t u h
    unfold login_body at h
    split at h
    · exact PyResult.noConfusion h
    · split at h
      · exact PyResult.noConfusion h
      · split at h
        case _ dfs heq =>
          dsimp only at h
          split at h
          · exact PyResult.noConfusion h
          case _ htk =>
            split at h
            · split at h
              · rename_i hok
                injection h with h'
                obtain ⟨rfl, -⟩ := Prod.mk.injEq .. ▸ And.intro (congrArg Prod.fst h') (congrArg Prod.snd h')
                simpa using htk
              · exact PyResult.noConfusion h
            · split at h
              · rename_i hok
                injection h with h'
                obtain ⟨rfl, -⟩ := Prod.mk.injEq .. ▸ And.intro (congrArg Prod.fst h') (congrArg Prod.snd h')
                simpa using htk
              · exact PyResult.noConfusion h
            · exact PyResult.noConfusion h
        · exact PyResult.noConfusion h

/-- Claim C10 (counterexample): a 401 login response whose body carries an
`error` key — the typical failed login, inside the conditions the claim
enumerates — raises `requests.HTTPError` at `raise_for_status` (modelled
`raised`), not SystemExit, because the body checks are never reached; a
200 response whose `data` is the non-object string "x" (so `data.token`
is missing) likewise raises AttributeError instead of exiting. -/
theorem c10_login_exit_cx :
    login 401 [("error", JVal.str "bad credentials")] = PyResult.raised
    ∧ login 200 [("data", JVal.str "x")] = PyResult.raised
    ∧ (PyResult.raised : PyResult (JVal × JVal)) ≠ PyResult.exited := by
  refine ⟨rfl, rfl, ?_⟩
  intro h
  exact PyResult.noConfusion h

/-- Claim C10 (amended): a failing HTTP status (4xx or 5xx) raises
`requests.HTTPError` at `raise_for_status` before the body is inspected;
for every response that passes `raise_for_status`, the login never
returns a failure value: an `error` key, a missing `data` key, or an
object `data` whose `token` is missing or falsy each terminate via
`sys.exit(1)` (SystemExit), and a `(token, user)` pair is returned only
when the token is present and truthy (other malformed shapes raise
rather than return). -/
theorem c10_login_exit_amended (status : Nat) (fs : List (String × JVal)) :
    (400 ≤ status → status < 600 → login status fs = PyResult.raised)
    ∧ (status < 400 →
        (((lookupF fs "error").isSome = true → login status fs = PyResult.exited)
         ∧ (lookupF fs "error" = none → lookupF fs "data" = none →
             login status fs = PyResult.exited)
         ∧ (∀ dfs, lookupF fs "error" = none → lookupF fs "data" = some (JVal.obj dfs) →
             truthy ((lookupF dfs "token").getD JVal.null) = false →
             login status fs = PyResult.exited)))
    ∧ (∀ t u, login status fs = PyResult.ok (t, u) → truthy t = true) := by
  have hb := login_body_cases fs
  refine ⟨?_, ?_, ?_⟩
  · intro h1 h2
    simp [login, h1, h2]
  · intro hlt
    have hnot : ¬(400 ≤ status ∧ status < 600) := by omega
    refine ⟨?_, ?_, ?_⟩
    · intro h
      simp only [login, if_neg hnot]
      exact hb.1 h
    · intro h1 h2
      simp only [login, if_neg hnot]
      exact hb.2.1 h1 h2
    · intro dfs h1 h2 h3
      simp only [login, if_neg hnot]
      exact hb.2.2.1 dfs h1 h2 h3
  · intro t u h
    by_cases hc : 400 ≤ status ∧ status < 600
    · rw [login, if_pos hc] at h
      exact PyResult.noConfusion h
    · rw [login, if_neg hc] at h
      exact hb.2.2.2 t u h

/-- Claim C10 (witness): a 200 response with an `error` key exits, a 401
response raises, and a 200 response with a truthy string token has a
truthy token. -/
theorem c10_login_exit_amended_witness :
    login 200 [("error", JVal.null)] = PyResult.exited
    ∧ login 401 [("error", JVal.null)] = PyResult.raised
    ∧ truthy (JVal.str "t") = true :=
  ⟨((c10_login_exit_amended 200 [("error", JVal.null)]).2.1 (by omega)).1 rfl,
   (c10_login_exit_amended 401 [("error", JVal.null)]).1 (by omega) (by omega),
   (c10_login_exit_amended 200 [("data", JVal.obj [("token", JVal.str "t")])]).2.2
     (JVal.str "t") (JVal.obj []) rfl⟩
